import Mathlib

/-!
Verification of the rust-iap purchase-normalization core.

Shallow embedding of the repository's data model and operations:
* `src/errors.rs` → `ServerError`
* `src/domain/entities/*` → `IapPurchaseId`, `IapDetails`, `NotificationDetails`, ...
* `src/data/models/*` → the vendor payload structures (only the fields the
  embedded operations read)
* `src/data/repositories/iap_repository_impl.rs` → the normalization functions
* `src/data/datasources/*` → JWS/JWT validation and the Apple sandbox fallback

Conventions: `chrono::DateTime<Utc>` timestamps are embedded as `Int` and the
clock (`chrono::Utc::now()`) is passed explicitly as a `now : Int` parameter.
`i64`/`i32` become `Int`.  External collaborators (HTTP datasources, the
`rust_iso3166` region table, the outcome of the remote Google JWKS
verification, and the openssl / jsonwebtoken cryptographic primitives) are
parameters of the embedded functions; the repository's own control flow around
them is embedded exactly.
-/

namespace RustIap

/-- Error taxonomy of `src/errors.rs`.  Each `define_internal_error!` /
`define_sensitive_error!` invocation becomes one constructor, carrying the
same message parameters. -/
inductive ServerError where
  | notActive
  | googlePlayDeveloperApiKeyInvalid (details : String)
  | googlePlayDeveloperApiError (function_name : String) (details : String)
  | googlePlayDeveloperApiInvalidResponse (details : String)
  | googleCloudRtdnNotificationParseError (details : String)
  | appStoreServerApiKeyInvalid (details : String)
  | appStoreServerApiError (function_name : String) (details : String)
  | appStoreServerApiInvalidResponse (details : String)
  | appStoreServerNotificationParseError
  | invalidGoogleSignature (invalid_component : String)
  | invalidAppleSignature (invalid_component : String)
  | invalidJws (details : String)
  | criticalError (details : String)
  deriving DecidableEq, Repr

/-- MaybeKnown from `src/domain/entities/iap_details.rs`. -/
inductive MaybeKnown (α : Type) where
  | known (a : α)
  | unknown
  deriving DecidableEq, Repr

/-- IapPurchaseId from `src/domain/entities/iap_purchase_id.rs`. -/
inductive IapPurchaseId where
  | appStoreTransactionId (id : String)
  | googlePlayPurchaseToken (token : String)
  deriving DecidableEq, Repr

/-- The `_ProductIdType` enum of `src/domain/entities/iap_product_id.rs`.
The repository's compile-time dispatch on `T: TypedProductId` is embedded as
a runtime dispatch on this tag (the tag plus a sku is all the generic code
reads from a product id). -/
inductive ProductIdType where
  | subscription
  | consumable
  | nonConsumable
  deriving DecidableEq, Repr

/-- PriceInfo from `src/domain/entities/iap_details.rs`. -/
structure PriceInfo where
  price_micros : Int
  currency_iso_4217 : String
  deriving DecidableEq, Repr

/-- The three type-specific detail structs of
`src/domain/entities/iap_details.rs` (`NonConsumableDetails`,
`ConsumableDetails`, `SubscriptionDetails`) as one closed union, so that the
generically-typed `IapDetails<T>` can be embedded non-generically. -/
inductive IapTypeSpecificDetails where
  | nonConsumableDetails
  | consumableDetails (is_consumed : MaybeKnown Bool) (quantity : Int)
  | subscriptionDetails (expiration_time : Int)
  deriving DecidableEq, Repr

/-- IapDetails from `src/domain/entities/iap_details.rs` (field name
`cannonical_id` kept as spelled in the source). -/
structure IapDetails where
  cannonical_id : IapPurchaseId
  is_active : Bool
  is_sandbox : Bool
  is_finalized_by_client : MaybeKnown Bool
  purchase_time : Int
  region_iso3166_alpha_3 : String
  price_info : Option PriceInfo
  type_specific_details : IapTypeSpecificDetails
  deriving DecidableEq, Repr

/-- SubscriptionEndReason from
`src/domain/entities/iap_update_notification.rs`. -/
inductive SubscriptionEndReason where
  | paused
  | cancelled (details : Option String)
  | failedToRenew
  | voided (is_refunded : Bool)
  | declinedPriceIncrease
  | unknown
  deriving DecidableEq, Repr

/-- NotificationDetails from
`src/domain/entities/iap_update_notification.rs`.  The typed product-id
wrappers (`IapConsumableId` etc.) are embedded as their sku `String`. -/
inductive NotificationDetails where
  | test
  | consumableVoided (application_id : String) (product_id : String)
      (purchase_id : IapPurchaseId) (details : IapDetails)
      (is_refunded : Bool) (reason : Option String)
  | nonConsumableVoided (application_id : String) (product_id : String)
      (purchase_id : IapPurchaseId) (details : IapDetails)
      (is_refunded : Bool) (reason : Option String)
  | unknownOneTimePurchaseVoided (application_id : String)
      (purchase_id : IapPurchaseId) (is_refunded : Bool)
      (reason : Option String)
  | subscriptionStarted (application_id : String) (product_id : String)
      (purchase_id : IapPurchaseId) (details : IapDetails)
  | subscriptionEnded (application_id : String) (product_id : String)
      (purchase_id : IapPurchaseId) (details : IapDetails)
      (reason : SubscriptionEndReason)
  | subscriptionExpiryChanged (application_id : String) (product_id : String)
      (purchase_id : IapPurchaseId) (renewal_id : Option String)
      (details : IapDetails)
  | other
  deriving DecidableEq, Repr

/-! ### Apple App Store Server API models
(`src/data/models/app_store_server_api/...`) -/

/-- Environment from `common.rs`. -/
inductive Environment where
  | sandbox
  | production
  | unknown (s : String)
  deriving DecidableEq, Repr

/-- RevocationReason from `jws_transaction_decoded_payload_model.rs`. -/
inductive RevocationReason where
  | other
  | issue
  deriving DecidableEq, Repr

/-- TransactionType from `jws_transaction_decoded_payload_model.rs`. -/
inductive TransactionType where
  | autoRenewableSubscription
  | nonConsumable
  | consumable
  | nonRenewableSubscription
  | unknown (s : String)
  deriving DecidableEq, Repr

/-- JwsTransactionDecodedPayloadModel, restricted to the fields the embedded
repository functions read.  Timestamps are `Int`; `quantity` is optional and
`transaction_type` and `storefront` are plain, matching how
`iap_repository_impl.rs` uses them. -/
structure JwsTransactionDecodedPayloadModel where
  original_transaction_id : String
  transaction_id : String
  product_id : String
  environment : Environment
  purchase_date : Int
  storefront : String
  price : Option Int
  currency : Option String
  quantity : Option Int
  expires_date : Option Int
  revocation_date : Option Int
  revocation_reason : Option RevocationReason
  transaction_type : TransactionType
  deriving DecidableEq, Repr

/-! ### Google Play Developer API models
(`src/data/models/google_play_developer_api/...`) -/

/-- PurchaseState from `product_purchase_model.rs`. -/
inductive PurchaseState where
  | purchased
  | canceled
  | pending
  deriving DecidableEq, Repr

/-- ConsumptionState from `product_purchase_model.rs`. -/
inductive ConsumptionState where
  | yetToBeConsumed
  | consumed
  deriving DecidableEq, Repr

/-- PurchaseType from `product_purchase_model.rs`. -/
inductive PurchaseType where
  | test
  | promo
  | rewarded
  deriving DecidableEq, Repr

/-- AcknowledgementState from `product_purchase_model.rs`. -/
inductive AcknowledgementState where
  | yetToBeAcknowledged
  | acknowledged
  deriving DecidableEq, Repr

/-- ProductPurchaseModel, restricted to the fields the embedded repository
functions read. -/
structure ProductPurchaseModel where
  purchase_time_millis : Int
  purchase_state : PurchaseState
  consumption_state : ConsumptionState
  purchase_type : Option PurchaseType
  acknowledgement_state : AcknowledgementState
  quantity : Option Int
  region_code : String
  deriving DecidableEq, Repr

/-- Price entry of `in_app_product_model.rs` (`price_micros` is a string in
the vendor response and is parsed by the repository). -/
structure GooglePrice where
  price_micros : String
  currency : String
  deriving DecidableEq, Repr

/-- InAppProductModel, restricted to the `prices` table the embedded
repository functions read; the `HashMap<String, Price>` is embedded as an
association list keyed by region code. -/
structure InAppProductModel where
  prices : List (String × GooglePrice)
  deriving DecidableEq, Repr

/-- SubscriptionState from `subscription_purchase_v2_model.rs`. -/
inductive SubscriptionState where
  | subscriptionStateUnspecified
  | subscriptionStatePending
  | subscriptionStateActive
  | subscriptionStatePaused
  | subscriptionStateInGracePeriod
  | subscriptionStateOnHold
  | subscriptionStateCanceled
  | subscriptionStateExpired
  | subscriptionStatePendingPurchaseCanceled
  | unknown (s : String)
  deriving DecidableEq, Repr

/-- AcknowledgementState from `subscription_purchase_v2_model.rs` (a distinct
enum from the product-purchase one). -/
inductive GsAcknowledgementState where
  | acknowledgementStateUnspecified
  | acknowledgementStatePending
  | acknowledgementStateAcknowledged
  | unknown (s : String)
  deriving DecidableEq, Repr

/-- SubscriptionPurchaseLineItem, restricted to the fields the embedded
repository functions read. -/
structure SubscriptionPurchaseLineItem where
  product_id : String
  expiry_time : Int
  deriving DecidableEq, Repr

/-- SubscriptionPurchaseV2Model, restricted to the fields the embedded
repository functions read (`test_purchase : Option Unit` stands for the
field-less `TestPurchase` marker struct). -/
structure SubscriptionPurchaseV2Model where
  region_code : String
  line_items : List SubscriptionPurchaseLineItem
  start_time : Option Int
  subscription_state : SubscriptionState
  latest_order_id : String
  test_purchase : Option Unit
  acknowledgement_state : GsAcknowledgementState
  deriving DecidableEq, Repr

/-! ### Type-specific detail extraction
(`impl TypedProductId for ...` in `src/data/repositories/iap_repository_impl.rs`)

The three trait impls are embedded as one function per extraction source,
dispatching on the `ProductIdType` tag.  The combinations the source marks
`unreachable!()` (a panic) are embedded as a `criticalError` so the functions
stay total; no embedded caller reaches them. -/

/-- Rust's `Iterator::max_by_key` on `expiry_time` (returns the last of
several equally-maximal elements, `None` on an empty iterator). -/
def max_by_expiry (l : List SubscriptionPurchaseLineItem) :
    Option SubscriptionPurchaseLineItem :=
  l.foldl
    (fun acc x =>
      match acc with
      | none => some x
      | some a => if a.expiry_time ≤ x.expiry_time then some x else some a)
    none

/-- extract_details_from_apple_transaction, dispatching over the three
`TypedProductId` impls. -/
def extract_details_from_apple_transaction (pt : ProductIdType)
    (m : JwsTransactionDecodedPayloadModel) :
    Except ServerError IapTypeSpecificDetails :=
  match pt with
  | .nonConsumable => .ok .nonConsumableDetails
  | .consumable =>
      .ok (.consumableDetails .unknown ((m.quantity.map id).getD 1))
  | .subscription =>
      match m.expires_date with
      | some d => .ok (.subscriptionDetails d)
      | none => .error (.appStoreServerApiInvalidResponse
          "subscription transaction info did not contain expiration date")

/-- extract_details_from_google_product_purchase, dispatching over the three
`TypedProductId` impls. -/
def extract_details_from_google_product_purchase (pt : ProductIdType)
    (m : ProductPurchaseModel) :
    Except ServerError IapTypeSpecificDetails :=
  match pt with
  | .nonConsumable => .ok .nonConsumableDetails
  | .consumable =>
      .ok (.consumableDetails
        (.known (decide (m.consumption_state = .consumed)))
        ((m.quantity.map id).getD 1))
  | .subscription => .error (.criticalError "unreachable")

/-- extract_details_from_google_subscription_purchase, dispatching over the
three `TypedProductId` impls. -/
def extract_details_from_google_subscription_purchase (pt : ProductIdType)
    (m : SubscriptionPurchaseV2Model) :
    Except ServerError IapTypeSpecificDetails :=
  match pt with
  | .nonConsumable => .error (.criticalError "unreachable")
  | .consumable => .error (.criticalError "unreachable")
  | .subscription =>
      match max_by_expiry m.line_items with
      | some li => .ok (.subscriptionDetails li.expiry_time)
      | none => .error (.googlePlayDeveloperApiInvalidResponse
          "subscription did not have any line items")

/-! ### IapDetails construction
(`impl IapDetails<U>` in `src/data/repositories/iap_repository_impl.rs`).
Fallible fields are evaluated in Rust struct-literal order, so earlier
fields take error precedence as in the source. -/

/-- PriceInfo::from_google_in_app_product_model. -/
def PriceInfo.from_google_in_app_product_model (p : InAppProductModel)
    (region_code : String) : Except ServerError PriceInfo :=
  match p.prices.lookup region_code with
  | none => .error (.googlePlayDeveloperApiInvalidResponse
      ("region code " ++ region_code ++ " not found in product prices"))
  | some details =>
      match details.price_micros.toInt? with
      | none => .error (.googlePlayDeveloperApiInvalidResponse
          "price micros could not be parsed")
      | some v => .ok { price_micros := v, currency_iso_4217 := details.currency }

/-- IapDetails::from_apple_transaction.  `now` stands for
`chrono::Utc::now()`. -/
def IapDetails.from_apple_transaction (now : Int) (pt : ProductIdType)
    (m : JwsTransactionDecodedPayloadModel) (include_price_info : Bool) :
    Except ServerError IapDetails := do
  let price_info ←
    if include_price_info then do
      let p ← match m.price with
        | some p => Except.ok p
        | none => Except.error (.appStoreServerApiInvalidResponse
            "transaction did not contain price info")
      let c ← match m.currency with
        | some c => Except.ok c
        | none => Except.error (.appStoreServerApiInvalidResponse
            "transaction did not contain currency info")
      pure (some { price_micros := p * 1000, currency_iso_4217 := c : PriceInfo })
    else
      pure none
  let tsd ← extract_details_from_apple_transaction pt m
  pure {
    cannonical_id := .appStoreTransactionId m.original_transaction_id,
    is_active := m.revocation_date.isNone && m.revocation_reason.isNone &&
      (match m.expires_date with
       | some expiry => decide (expiry > now)
       | none => true),
    is_sandbox := decide (m.environment = .sandbox),
    is_finalized_by_client := .unknown,
    purchase_time := m.purchase_date,
    region_iso3166_alpha_3 := m.storefront,
    price_info := price_info,
    type_specific_details := tsd }

/-- IapDetails::from_google_product_purchase.  `region_lookup` stands for the
external `rust_iso3166::from_alpha2(..).alpha3` table. -/
def IapDetails.from_google_product_purchase
    (region_lookup : String → Option String) (pt : ProductIdType)
    (purchase_id : IapPurchaseId) (m : ProductPurchaseModel)
    (p : Option InAppProductModel) : Except ServerError IapDetails := do
  let region ← match region_lookup m.region_code with
    | some a3 => Except.ok a3
    | none => Except.error (.googlePlayDeveloperApiInvalidResponse
        ("invalid region code " ++ m.region_code))
  let price_info ← match p.map
      (fun p => PriceInfo.from_google_in_app_product_model p m.region_code) with
    | some (Except.ok pi) => pure (some pi)
    | some (Except.error e) => Except.error e
    | none => pure none
  let tsd ← extract_details_from_google_product_purchase pt m
  pure {
    cannonical_id := purchase_id,
    is_active := decide (m.purchase_state = .purchased),
    is_sandbox := decide (m.purchase_type = some .test),
    is_finalized_by_client := .known
      (decide (m.acknowledgement_state = .acknowledged)),
    purchase_time := m.purchase_time_millis,
    region_iso3166_alpha_3 := region,
    price_info := price_info,
    type_specific_details := tsd }

/-- IapDetails::from_google_subscription_purchase. -/
def IapDetails.from_google_subscription_purchase (now : Int)
    (region_lookup : String → Option String) (pt : ProductIdType)
    (purchase_id : IapPurchaseId) (m : SubscriptionPurchaseV2Model)
    (p : Option InAppProductModel) : Except ServerError IapDetails := do
  let purchase_time ← match m.start_time with
    | some t => Except.ok t
    | none => Except.error (.googlePlayDeveloperApiInvalidResponse
        "subscription did not have a start time")
  let region ← match region_lookup m.region_code with
    | some a3 => Except.ok a3
    | none => Except.error (.googlePlayDeveloperApiInvalidResponse
        ("invalid region code " ++ m.region_code))
  let price_info ← match p.map
      (fun p => PriceInfo.from_google_in_app_product_model p m.region_code) with
    | some (Except.ok pi) => pure (some pi)
    | some (Except.error e) => Except.error e
    | none => pure none
  let tsd ← extract_details_from_google_subscription_purchase pt m
  pure {
    cannonical_id := purchase_id,
    is_active :=
      (decide (m.subscription_state = .subscriptionStateActive) ||
       decide (m.subscription_state = .subscriptionStatePaused) ||
       decide (m.subscription_state = .subscriptionStateOnHold) ||
       decide (m.subscription_state = .subscriptionStateCanceled) ||
       decide (m.subscription_state = .subscriptionStateInGracePeriod)) &&
      m.line_items.any (fun li => decide (li.expiry_time > now)),
    is_sandbox := m.test_purchase.isSome,
    is_finalized_by_client :=
      match m.acknowledgement_state with
      | .acknowledgementStateAcknowledged => .known true
      | .acknowledgementStatePending => .known false
      | .unknown _ => .unknown
      | .acknowledgementStateUnspecified => .unknown,
    purchase_time := purchase_time,
    region_iso3166_alpha_3 := region,
    price_info := price_info,
    type_specific_details := tsd }

/-! ### Datasource interfaces

The `async` datasource traits are embedded as records of functions returning
`Except ServerError _`: one call = one function application, so a concrete
record instance fixes the vendor's responses for a scenario. -/

/-- AppStoreServerApiDatasource (`app_store_server_api_datasource.rs`),
restricted to the call `verify_and_get_details` makes. -/
structure AppStoreServerApiDatasource where
  get_transaction_info : String → Except ServerError JwsTransactionDecodedPayloadModel

/-- GooglePlayDeveloperApiDatasource
(`google_play_developer_api_datasource.rs`), restricted to the read calls the
repository makes (arguments: package name / application id, sku or token). -/
structure GooglePlayDeveloperApiDatasource where
  get_product_purchase : String → String → String → Except ServerError ProductPurchaseModel
  get_in_app_product : String → String → Except ServerError InAppProductModel
  get_subscription_purchase_v2 : String → String → Except ServerError SubscriptionPurchaseV2Model

/-! ### verify_and_get_details
(`IapRepository for IapRepositoryImpl` in `iap_repository_impl.rs`) -/

/-- The body of `verify_and_get_details` up to (and excluding) the final
`is_active` gate: the `match` over the purchase-id variant and product type
that builds the normalized `IapDetails` snapshot. -/
def compute_details (now : Int) (region_lookup : String → Option String)
    (apple : AppStoreServerApiDatasource)
    (google : GooglePlayDeveloperApiDatasource) (application_id : String)
    (pt : ProductIdType) (sku : String) (purchase_id : IapPurchaseId)
    (include_price_info : Bool) : Except ServerError IapDetails :=
  match purchase_id with
  | .appStoreTransactionId transaction_id => do
      let m ← apple.get_transaction_info transaction_id
      IapDetails.from_apple_transaction now pt m include_price_info
  | .googlePlayPurchaseToken token =>
      match pt with
      | .consumable | .nonConsumable => do
          let m ← google.get_product_purchase application_id sku token
          let p ←
            if include_price_info then do
              let ip ← google.get_in_app_product application_id sku
              pure (some ip)
            else
              pure none
          IapDetails.from_google_product_purchase region_lookup pt purchase_id m p
      | .subscription => do
          let m ← google.get_subscription_purchase_v2 application_id token
          -- Price info not available for subscriptions (source passes None).
          IapDetails.from_google_subscription_purchase now region_lookup pt
            purchase_id m none

/-- verify_and_get_details: build the snapshot, then fail with `NotActive`
whenever `is_active` is false. -/
def verify_and_get_details (now : Int)
    (region_lookup : String → Option String)
    (apple : AppStoreServerApiDatasource)
    (google : GooglePlayDeveloperApiDatasource) (application_id : String)
    (pt : ProductIdType) (sku : String) (purchase_id : IapPurchaseId)
    (include_price_info : Bool) : Except ServerError IapDetails := do
  let iap_details ← compute_details now region_lookup apple google
    application_id pt sku purchase_id include_price_info
  if !iap_details.is_active then
    Except.error .notActive
  else
    Except.ok iap_details

/-! ### Signed-payload trust verification
(`src/data/datasources/utils.rs`)

A JWS string handed to `validate_and_parse_apple_jws` is embedded as an
`AppleJws` record carrying, for that concrete input, the outcome of each
external primitive the function consults: header parse, the `x5c` chain
entries (an entry is `none` when its base64/DER decode fails — the source's
two decode error messages are merged into one here), the openssl trust-chain
verification outcome (`none` = openssl error, `some b` = verdict), the ES256
signature verdict under the leaf certificate's key (key extraction and
decoding-key construction failures are folded into `sig_valid = false`; their
distinct messages are not claim-relevant), the payload's `aud` claim, and the
serde parse of the payload into the target type.  The function itself embeds
the source's control flow over these outcomes exactly. -/

/-- Certificates are opaque DER blobs; only their identity matters here. -/
abbrev Cert := String

/-- Abstraction of one concrete signed payload presented to
`validate_and_parse_apple_jws`, as described above. -/
structure AppleJws (P : Type) where
  header_ok : Bool
  x5c : Option (List (Option Cert))
  chain_verify : Option Bool
  sig_valid : Bool
  payload_aud : Option String
  payload : Option P
  deriving DecidableEq, Repr

/-- Decoding of the x5c chain entries, mirroring the source's
`.map(..).collect::<Result<Vec<_>, _>>()` (in order, stopping at the first
entry whose decode fails). -/
def decode_x5c_certs : List (Option Cert) → Except ServerError (List Cert)
  | [] => .ok []
  | c :: rest =>
      match c with
      | some cert =>
          match decode_x5c_certs rest with
          | .ok certs => .ok (cert :: certs)
          | .error e => .error e
      | none => .error (.invalidAppleSignature "failed to decode x5c certs")

/-- validate_and_parse_apple_jws from `utils.rs`.  The `aud` step reflects
the `jsonwebtoken` validation configured there: `required_spec_claims` is
cleared and `set_audience([expected_aud])` is applied, so a payload with an
`aud` claim different from `expected_aud` fails inside `decode` (surfaced as
the signature-verification error), while a payload with no `aud` claim
passes. -/
def validate_and_parse_apple_jws {P : Type} (jws : AppleJws P)
    (expected_aud : String) : Except ServerError P :=
  -- Parse payload (the final step, shared by the two aud branches below).
  let parse_payload : Except ServerError P :=
    match jws.payload with
    | some p => .ok p
    | none => .error (.invalidJws "failed to parse JWS payload")
  -- Parse x5c cert chain from JWS header.
  if !jws.header_ok then
    .error (.invalidJws "failed to parse JWS header")
  else
    match jws.x5c with
    | none => .error (.invalidJws "missing x5c field in JWS header")
    | some x5c_chain =>
        match decode_x5c_certs x5c_chain with
        | .error e => .error e
        | .ok certs =>
            -- Validate certificate chain.
            match certs.head? with
            | none => .error (.invalidAppleSignature "empty x5c chain")
            | some _leaf_cert =>
                match jws.chain_verify with
                | none => .error
                    (.invalidAppleSignature "failed to validate x5c chain")
                | some false => .error
                    (.invalidAppleSignature "invalid x5c chain")
                | some true =>
                    -- Verify JWS signature (ES256 under the leaf
                    -- certificate's public key), with audience validation
                    -- inside the same decode step.
                    if !jws.sig_valid then
                      .error (.invalidAppleSignature
                        "failed to verify JWS signature")
                    else
                      match jws.payload_aud with
                      | some aud =>
                          if aud ≠ expected_aud then
                            .error (.invalidAppleSignature
                              "failed to verify JWS signature")
                          else
                            parse_payload
                      | none => parse_payload

/-- OneOrMany from the `jwtk` crate, as used for the Google `aud` claim. -/
inductive OneOrMany (α : Type) where
  | one (a : α)
  | vec (l : List α)
  deriving DecidableEq, Repr

/-- The claims `validate_google_header` reads from a successfully verified
Google JWT. -/
structure GoogleClaims where
  aud : OneOrMany String
  deriving DecidableEq, Repr

/-- validate_google_header from `utils.rs`.  `verify_outcome` is the result
of the external `RemoteJwksVerifier::verify` call on the (Bearer-stripped)
token: `Except.error` when the remote signature verification fails, `.ok`
with the decoded claims otherwise.  The function embeds the source's
handling of that outcome and its audience check exactly. -/
def validate_google_header (verify_outcome : Except String GoogleClaims)
    (expected_aud : String) : Except ServerError Unit :=
  match verify_outcome with
  | .error _ => .error (.invalidGoogleSignature "token")
  | .ok result =>
      let valid_aud :=
        match result.aud with
        | .one aud => decide (aud = expected_aud)
        | .vec auds => auds.any (fun aud => decide (aud = expected_aud))
      if !valid_aud then
        .error (.invalidGoogleSignature "audience")
      else
        .ok ()

/-! ### Apple sandbox fallback
(`AppStoreServerApiDatasourceImpl::callout_with_sandbox_fallback`) -/

/-- callout_with_sandbox_fallback.  `production` and `sandbox` are the
outcomes the two endpoints would return; the second component of the result
records which endpoints were actually called out to, in order (the source
awaits the production callout first and reaches the sandbox callout only in
the production error arm). -/
def callout_with_sandbox_fallback {T : Type}
    (production sandbox : Except ServerError T) :
    Except ServerError T × List String :=
  match production with
  | .ok production_response => (.ok production_response, ["production"])
  | .error production_error =>
      match sandbox with
      | .ok sandbox_response => (.ok sandbox_response, ["production", "sandbox"])
      | .error _sandbox_error => (.error production_error, ["production", "sandbox"])

/-! ### App Store Server Notification models
(`src/data/models/app_store_server_notifications/...`) -/

/-- NotificationType from `response_body_v2_decoded_payload_model.rs`. -/
inductive NotificationType where
  | subscribed
  | didChangeRenewalPref
  | didChangeRenewalStatus
  | offerRedeemed
  | didRenew
  | expired
  | didFailToRenew
  | gracePeriodExpired
  | priceIncrease
  | refund
  | refundDeclined
  | refundReversed
  | renewalExtended
  | renewalExtension
  | revoke
  | test
  | externalPurchaseToken
  | oneTimeCharge
  | consumptionRequest
  | unknown (s : String)
  deriving DecidableEq, Repr

/-- NotificationSubtype from `response_body_v2_decoded_payload_model.rs`. -/
inductive NotificationSubtype where
  | initialBuy
  | resubscribe
  | downgrade
  | upgrade
  | autoRenewEnabled
  | autoRenewDisabled
  | voluntary
  | billingRetry
  | priceIncrease
  | gracePeriod
  | pending
  | accepted
  | billingRecovery
  | productNotForSale
  | summary
  | failure
  | unreported
  | unknown (s : String)
  deriving DecidableEq, Repr

/-- Rust `Debug` rendering of `NotificationType`, as interpolated into the
`AppStoreServerApiInvalidResponse` message by `from_apple_notification`. -/
def NotificationType.debugStr : NotificationType → String
  | .subscribed => "Subscribed"
  | .didChangeRenewalPref => "DidChangeRenewalPref"
  | .didChangeRenewalStatus => "DidChangeRenewalStatus"
  | .offerRedeemed => "OfferRedeemed"
  | .didRenew => "DidRenew"
  | .expired => "Expired"
  | .didFailToRenew => "DidFailToRenew"
  | .gracePeriodExpired => "GracePeriodExpired"
  | .priceIncrease => "PriceIncrease"
  | .refund => "Refund"
  | .refundDeclined => "RefundDeclined"
  | .refundReversed => "RefundReversed"
  | .renewalExtended => "RenewalExtended"
  | .renewalExtension => "RenewalExtension"
  | .revoke => "Revoke"
  | .test => "Test"
  | .externalPurchaseToken => "ExternalPurchaseToken"
  | .oneTimeCharge => "OneTimeCharge"
  | .consumptionRequest => "ConsumptionRequest"
  | .unknown s => "Unknown(\"" ++ s ++ "\")"

/-- JwsRenewalInfoDecodedPayloadModel, restricted to a representative field
(no embedded operation reads its contents; `parse_notification` only decodes
it). -/
structure JwsRenewalInfoDecodedPayloadModel where
  auto_renew_product_id : String
  deriving DecidableEq, Repr

/-- NotificationData from `response_body_v2_decoded_payload_model.rs`,
restricted to the fields the embedded functions read.  The
`signedTransactionInfo` / `signedRenewalInfo` JWS strings are embedded as
`AppleJws` payload abstractions, typed by what they decode to. -/
structure NotificationData where
  bundle_id : String
  signed_transaction_info : Option (AppleJws JwsTransactionDecodedPayloadModel)
  signed_renewal_info : Option (AppleJws JwsRenewalInfoDecodedPayloadModel)
  deriving DecidableEq, Repr

/-- ResponseBodyV2DecodedPayloadModel, restricted to the fields the embedded
functions read (`summary` and `externalPurchaseToken` are never read by
them). -/
structure ResponseBodyV2DecodedPayloadModel where
  notification_type : NotificationType
  subtype : Option NotificationSubtype
  data : Option NotificationData
  notification_uuid : String
  signed_date : Int
  deriving DecidableEq, Repr

/-- ResponseBodyV2Model from `response_body_v2_model.rs` (the outer webhook
envelope: just the signedPayload). -/
structure ResponseBodyV2Model where
  signed_payload : AppleJws ResponseBodyV2DecodedPayloadModel
  deriving DecidableEq, Repr

/-! ### Apple notification parsing
(`AppStoreServerNotificationDatasourceImpl::parse_notification`) -/

/-- parse_notification from `app_store_server_notification_datasource.rs`.
`body` is the serde parse of the raw webhook body into the envelope (`none`
when the outer JSON is malformed).  Both nested signed payloads, when
present, are run through `validate_and_parse_apple_jws` with the same
`expected_aud` as the outer payload, with errors propagated. -/
def parse_notification (body : Option ResponseBodyV2Model)
    (expected_aud : String) :
    Except ServerError (ResponseBodyV2DecodedPayloadModel ×
      Option JwsTransactionDecodedPayloadModel ×
      Option JwsRenewalInfoDecodedPayloadModel) :=
  match body with
  | none => .error .appStoreServerNotificationParseError
  | some wrapper =>
      match validate_and_parse_apple_jws wrapper.signed_payload expected_aud with
      | .error e => .error e
      | .ok decoded_payload =>
          let ti_result : Except ServerError
              (Option JwsTransactionDecodedPayloadModel) :=
            match decoded_payload.data.bind
                (fun d => d.signed_transaction_info) with
            | some transaction_info =>
                match validate_and_parse_apple_jws transaction_info
                    expected_aud with
                | .ok t => .ok (some t)
                | .error e => .error e
            | none => .ok none
          match ti_result with
          | .error e => .error e
          | .ok decoded_transaction_info =>
              let ri_result : Except ServerError
                  (Option JwsRenewalInfoDecodedPayloadModel) :=
                match decoded_payload.data.bind
                    (fun d => d.signed_renewal_info) with
                | some renewal_info =>
                    match validate_and_parse_apple_jws renewal_info
                        expected_aud with
                    | .ok r => .ok (some r)
                    | .error e => .error e
                | none => .ok none
              match ri_result with
              | .error e => .error e
              | .ok decoded_renewal_info =>
                  .ok (decoded_payload, decoded_transaction_info,
                    decoded_renewal_info)

/-! ### Apple notification → NotificationDetails
(`NotificationDetails::from_apple_notification` in
`iap_repository_impl.rs`) -/

/-- Rust `Debug` rendering of an `Option<RevocationReason>`, as interpolated
into the `reason` field of the voided variants. -/
def revocation_reason_debug : Option RevocationReason → String
  | none => "None"
  | some .other => "Some(Other)"
  | some .issue => "Some(Issue)"

/-- NotificationDetails::from_apple_notification: the dispatch table on
(notification_type, subtype), with arms in source order. -/
def NotificationDetails.from_apple_notification (now : Int)
    (notification : ResponseBodyV2DecodedPayloadModel)
    (transaction_info : Option JwsTransactionDecodedPayloadModel) :
    Except ServerError NotificationDetails :=
  let expected_data_missing_err : Except ServerError NotificationDetails :=
    .error (.appStoreServerApiInvalidResponse
      ("notification type " ++ notification.notification_type.debugStr ++
       " did not contain expected data"))
  match notification.notification_type, notification.subtype with
  | .test, _ => .ok .test

  | .subscribed, _ =>
      match notification.data, transaction_info with
      | some data, some ti => do
          let details ← IapDetails.from_apple_transaction now .subscription ti
            false
          pure (.subscriptionStarted data.bundle_id ti.product_id
            (.appStoreTransactionId ti.original_transaction_id) details)
      | _, _ => expected_data_missing_err

  | .didRenew, _
  | .didFailToRenew, some .gracePeriod
  | .refundReversed, _
  | .renewalExtended, _ =>
      match notification.data, transaction_info with
      | some data, some ti => do
          let details ← IapDetails.from_apple_transaction now .subscription ti
            false
          pure (.subscriptionExpiryChanged data.bundle_id ti.product_id
            (.appStoreTransactionId ti.original_transaction_id)
            (if notification.notification_type = .didRenew then
              some ti.transaction_id
            else
              none)
            details)
      | _, _ => expected_data_missing_err

  | .didFailToRenew, _
  | .expired, _
  | .gracePeriodExpired, _ =>
      match notification.data, transaction_info with
      | some data, some ti => do
          let details ← IapDetails.from_apple_transaction now .subscription ti
            false
          pure (.subscriptionEnded data.bundle_id ti.product_id
            (.appStoreTransactionId ti.original_transaction_id) details
            (if notification.notification_type = .gracePeriodExpired ∨
                notification.subtype = some .billingRetry then
              .failedToRenew
            else if notification.subtype = some .voluntary then
              .cancelled none
            else if notification.subtype = some .priceIncrease then
              .declinedPriceIncrease
            else
              .unknown))
      | _, _ => expected_data_missing_err

  | .refund, _
  | .revoke, _ =>
      match notification.data, transaction_info with
      | some data, some ti =>
          match ti.transaction_type with
          | .nonConsumable => do
              let details ← IapDetails.from_apple_transaction now
                .nonConsumable ti false
              pure (.nonConsumableVoided data.bundle_id ti.product_id
                (.appStoreTransactionId ti.original_transaction_id) details
                (decide (notification.notification_type = .refund))
                (some (revocation_reason_debug ti.revocation_reason)))
          | .consumable => do
              let details ← IapDetails.from_apple_transaction now .consumable
                ti false
              pure (.consumableVoided data.bundle_id ti.product_id
                (.appStoreTransactionId ti.original_transaction_id) details
                (decide (notification.notification_type = .refund))
                (some (revocation_reason_debug ti.revocation_reason)))
          | _ => do
              let details ← IapDetails.from_apple_transaction now .subscription
                ti false
              pure (.subscriptionEnded data.bundle_id ti.product_id
                (.appStoreTransactionId ti.original_transaction_id) details
                (.voided (decide (notification.notification_type = .refund))))
      | _, _ => expected_data_missing_err

  -- Changes that do not affect validity or expiry.
  | .didChangeRenewalPref, _
  | .didChangeRenewalStatus, _
  | .offerRedeemed, _
  | .priceIncrease, _
  | .refundDeclined, _
  | .renewalExtension, _
  | .externalPurchaseToken, _
  | .oneTimeCharge, _
  | .consumptionRequest, _
  | .unknown _, _ => .ok .other

/-! ### Google voided-purchase notification → NotificationDetails
(`NotificationDetails::from_google_voided_purchase_notification` in
`iap_repository_impl.rs`) -/

/-- VoidedPurchaseProductType from `developer_notification_model.rs`. -/
inductive VoidedPurchaseProductType where
  | productTypeSubscription
  | productTypeOneTime
  deriving DecidableEq, Repr

/-- VoidedPurchaseRefundType from `developer_notification_model.rs`. -/
inductive VoidedPurchaseRefundType where
  | refundTypeFullRefund
  | refundTypeQuantityBasedPartialRefund
  deriving DecidableEq, Repr

/-- VoidedPurchaseNotification from `developer_notification_model.rs`. -/
structure VoidedPurchaseNotification where
  purchase_token : String
  order_id : String
  product_type : VoidedPurchaseProductType
  refund_type : VoidedPurchaseRefundType
  deriving DecidableEq, Repr

/-- NotificationDetails::from_google_voided_purchase_notification.  The
second component of the result records each
`get_subscription_purchase_v2(application_id, token)` callout made to the
Google Play Developer API datasource, in order. -/
def NotificationDetails.from_google_voided_purchase_notification (now : Int)
    (region_lookup : String → Option String)
    (google : GooglePlayDeveloperApiDatasource)
    (notification : VoidedPurchaseNotification) (application_id : String) :
    Except ServerError NotificationDetails × List (String × String) :=
  match notification.product_type with
  | .productTypeOneTime =>
      -- The product ID is not available here, so there is no way to fetch the
      -- product details or tell consumable from non-consumable.
      (.ok (.unknownOneTimePurchaseVoided application_id
        (.googlePlayPurchaseToken notification.purchase_token)
        (decide (notification.refund_type = .refundTypeFullRefund))
        none), [])
  | .productTypeSubscription =>
      let calls := [(application_id, notification.purchase_token)]
      match google.get_subscription_purchase_v2 application_id
          notification.purchase_token with
      | .error e => (.error e, calls)
      | .ok m =>
          (do
            let product_id ← match m.line_items.getLast? with
              | some li => Except.ok li.product_id
              | none => Except.error (.googlePlayDeveloperApiInvalidResponse
                  "subscription did not have any line items")
            let purchase_id :=
              IapPurchaseId.googlePlayPurchaseToken notification.purchase_token
            let details ← IapDetails.from_google_subscription_purchase now
              region_lookup .subscription purchase_id m none
            pure (.subscriptionEnded application_id product_id purchase_id
              details
              (.voided (decide
                (notification.refund_type = .refundTypeFullRefund)))),
           calls)

/-! ### Concrete scenario inputs

Closed example values used by the witness theorems below to evaluate the
embedded operations on concrete inputs. -/

/-- Example region table entry (stands for `rust_iso3166::from_alpha2`). -/
def exRegionLookup : String → Option String :=
  fun s => if s = "US" then some "USA" else none

/-- Example subscription the vendor reports as expired, all line items in the
past relative to `now = 10`. -/
def exExpiredSub : SubscriptionPurchaseV2Model where
  region_code := "US"
  line_items := [{ product_id := "sku1", expiry_time := 5 }]
  start_time := some 1
  subscription_state := .subscriptionStateExpired
  latest_order_id := "order1"
  test_purchase := none
  acknowledgement_state := .acknowledgementStateAcknowledged

/-- Example subscription the vendor reports as canceled, with a line item
expiring in the future relative to `now = 3`. -/
def exCanceledSub : SubscriptionPurchaseV2Model where
  region_code := "US"
  line_items := [{ product_id := "sku1", expiry_time := 5 }]
  start_time := some 1
  subscription_state := .subscriptionStateCanceled
  latest_order_id := "order1"
  test_purchase := none
  acknowledgement_state := .acknowledgementStateAcknowledged

/-- Google datasource whose subscription endpoint returns `exExpiredSub`. -/
def exGoogleExpired : GooglePlayDeveloperApiDatasource where
  get_product_purchase := fun _ _ _ =>
    .error (.googlePlayDeveloperApiError "GetProductPurchase" "unused")
  get_in_app_product := fun _ _ =>
    .error (.googlePlayDeveloperApiError "GetInAppProduct" "unused")
  get_subscription_purchase_v2 := fun _ _ => .ok exExpiredSub

/-- Apple datasource that always fails (unused by the Google scenarios). -/
def exAppleUnused : AppStoreServerApiDatasource where
  get_transaction_info := fun _ =>
    .error (.appStoreServerApiError "GetTransactionInfo" "unused")

/-- Normalized snapshot of `exExpiredSub` at `now = 10` (inactive). -/
def exExpiredDetails : IapDetails where
  cannonical_id := .googlePlayPurchaseToken "tok"
  is_active := false
  is_sandbox := false
  is_finalized_by_client := .known true
  purchase_time := 1
  region_iso3166_alpha_3 := "USA"
  price_info := none
  type_specific_details := .subscriptionDetails 5

/-- Normalized snapshot of `exCanceledSub` at `now = 3` (still active). -/
def exCanceledDetails : IapDetails where
  cannonical_id := .googlePlayPurchaseToken "tok"
  is_active := true
  is_sandbox := false
  is_finalized_by_client := .known true
  purchase_time := 1
  region_iso3166_alpha_3 := "USA"
  price_info := none
  type_specific_details := .subscriptionDetails 5

/-- Example Apple transaction for a consumable product, revoked and refunded
(scenario instance for the Refund notification). -/
def exConsumableTx : JwsTransactionDecodedPayloadModel where
  original_transaction_id := "otx1"
  transaction_id := "tx2"
  product_id := "coins100"
  environment := .production
  purchase_date := 2
  storefront := "USA"
  price := none
  currency := none
  quantity := some 1
  expires_date := none
  revocation_date := some 4
  revocation_reason := some .other
  transaction_type := .consumable

/-- Example Apple transaction for an auto-renewable subscription (scenario
instance for the DidRenew notification), expiring at `20`. -/
def exSubscriptionTx : JwsTransactionDecodedPayloadModel where
  original_transaction_id := "otx9"
  transaction_id := "tx10"
  product_id := "monthly001"
  environment := .production
  purchase_date := 2
  storefront := "USA"
  price := none
  currency := none
  quantity := none
  expires_date := some 20
  revocation_date := none
  revocation_reason := none
  transaction_type := .autoRenewableSubscription

/-- Example fully-valid signed payload wrapper around a payload `p` with
audience `aud`. -/
def exValidJws {P : Type} (p : P) (aud : String) : AppleJws P where
  header_ok := true
  x5c := some [some "leafcert", some "intermediate"]
  chain_verify := some true
  sig_valid := true
  payload_aud := some aud
  payload := some p

/-- Example signed payload whose ES256 signature does not verify. -/
def exBadSigJws {P : Type} (p : P) (aud : String) : AppleJws P where
  header_ok := true
  x5c := some [some "leafcert"]
  chain_verify := some true
  sig_valid := false
  payload_aud := some aud
  payload := some p

/-- Example notification `data` whose nested transaction payload is
`exSubscriptionTx`, validly signed. -/
def exDidRenewData : NotificationData where
  bundle_id := "com.example.app"
  signed_transaction_info := some (exValidJws exSubscriptionTx "aud1")
  signed_renewal_info := none

/-- Example decoded Apple notification payload: DidRenew with data whose
nested transaction payload is `exSubscriptionTx`, validly signed. -/
def exDidRenewPayload : ResponseBodyV2DecodedPayloadModel where
  notification_type := .didRenew
  subtype := none
  data := some exDidRenewData
  notification_uuid := "uuid1"
  signed_date := 6

/-- Example notification payload whose nested transaction payload has a bad
signature (for the propagation scenario). -/
def exBadInnerPayload : ResponseBodyV2DecodedPayloadModel where
  notification_type := .didRenew
  subtype := none
  data := some {
    bundle_id := "com.example.app",
    signed_transaction_info := some (exBadSigJws exSubscriptionTx "aud1"),
    signed_renewal_info := some (exValidJws { auto_renew_product_id := "monthly001" } "aud1") }
  notification_uuid := "uuid2"
  signed_date := 6

/-- Example webhook envelope: `exBadInnerPayload` validly signed at the
outer layer. -/
def exBadInnerBody : ResponseBodyV2Model where
  signed_payload := exValidJws exBadInnerPayload "aud1"

/-- The `data` object of `exBadInnerPayload`. -/
def exBadInnerData : NotificationData where
  bundle_id := "com.example.app"
  signed_transaction_info := some (exBadSigJws exSubscriptionTx "aud1")
  signed_renewal_info := some (exValidJws
    { auto_renew_product_id := "monthly001" } "aud1")

/-- Example notification `data` whose nested transaction payload is
`exConsumableTx`, validly signed. -/
def exRefundData : NotificationData where
  bundle_id := "com.example.app"
  signed_transaction_info := some (exValidJws exConsumableTx "aud1")
  signed_renewal_info := none

/-- Example decoded Apple notification payload: Refund of the consumable
transaction `exConsumableTx`. -/
def exRefundPayload : ResponseBodyV2DecodedPayloadModel where
  notification_type := .refund
  subtype := none
  data := some exRefundData
  notification_uuid := "uuid3"
  signed_date := 6

/-- Google datasource that fails every call (used to show the one-time
voided-purchase path never consults the datasource). -/
def exGoogleUnused : GooglePlayDeveloperApiDatasource where
  get_product_purchase := fun _ _ _ =>
    .error (.googlePlayDeveloperApiError "GetProductPurchase" "unused")
  get_in_app_product := fun _ _ =>
    .error (.googlePlayDeveloperApiError "GetInAppProduct" "unused")
  get_subscription_purchase_v2 := fun _ _ =>
    .error (.googlePlayDeveloperApiError "GetSubscriptionPurchaseV2" "unused")

/-- Example voided-purchase notification: one-time product, full refund. -/
def exVoidedOneTimeFull : VoidedPurchaseNotification where
  purchase_token := "tok"
  order_id := "order1"
  product_type := .productTypeOneTime
  refund_type := .refundTypeFullRefund

/-- Example voided-purchase notification: one-time product, quantity-based
partial refund. -/
def exVoidedOneTimePartial : VoidedPurchaseNotification where
  purchase_token := "tok"
  order_id := "order1"
  product_type := .productTypeOneTime
  refund_type := .refundTypeQuantityBasedPartialRefund

/-- One comparison step of the `max_by_key` fold (keeps the later element on
ties, as Rust does). -/
def max_step (a x : SubscriptionPurchaseLineItem) : SubscriptionPurchaseLineItem :=
  if a.expiry_time ≤ x.expiry_time then x else a

/-! ## Theorems -/

theorem max_by_expiry_nil : max_by_expiry [] = none := rfl

theorem max_by_expiry_cons (h : SubscriptionPurchaseLineItem)
    (t : List SubscriptionPurchaseLineItem) :
    max_by_expiry (h :: t) = some (t.foldl max_step h) := by
  unfold max_by_expiry
  simp only [List.foldl]
  induction t generalizing h with
  | nil => rfl
  | cons x t ih =>
      simp only [List.foldl, max_step]
      by_cases hc : h.expiry_time ≤ x.expiry_time <;> simp [hc, ih, max_step]

theorem foldl_max_step_props (t : List SubscriptionPurchaseLineItem) :
    ∀ a : SubscriptionPurchaseLineItem,
      (t.foldl max_step a = a ∨ t.foldl max_step a ∈ t) ∧
      a.expiry_time ≤ (t.foldl max_step a).expiry_time ∧
      ∀ x ∈ t, x.expiry_time ≤ (t.foldl max_step a).expiry_time := by
  induction t with
  | nil => intro a; simp
  | cons h t ih =>
      intro a
      simp only [List.foldl]
      by_cases hc : a.expiry_time ≤ h.expiry_time
      · have hstep : max_step a h = h := by simp [max_step, hc]
        rw [hstep]
        rcases ih h with ⟨hmem, hle, hall⟩
        refine ⟨?_, ?_, ?_⟩
        · rcases hmem with he | hm
          · exact Or.inr (by simp [he])
          · exact Or.inr (by simp [hm])
        · exact le_trans hc hle
        · intro x hx
          rcases List.mem_cons.mp hx with rfl | hx
          · exact hle
          · exact hall x hx
      · have hstep : max_step a h = a := by simp [max_step, hc]
        rw [hstep]
        rcases ih a with ⟨hmem, hle, hall⟩
        refine ⟨?_, ?_, ?_⟩
        · rcases hmem with he | hm
          · exact Or.inl he
          · exact Or.inr (by simp [hm])
        · exact hle
        · intro x hx
          rcases List.mem_cons.mp hx with rfl | hx
          · exact le_trans (le_of_lt (lt_of_not_le hc)) hle
          · exact hall x hx

/-- C3: for every Apple vendor-API callout with a production and a sandbox
endpoint, a successful production callout is returned without the sandbox
endpoint being tried; on production failure a successful sandbox result is
returned; and when both fail the production error is surfaced and the
sandbox error discarded. -/
theorem callout_with_sandbox_fallback_spec {T : Type}
    (production sandbox : Except ServerError T) :
    (∀ r, production = .ok r →
      callout_with_sandbox_fallback production sandbox =
        (.ok r, ["production"])) ∧
    (∀ e r, production = .error e → sandbox = .ok r →
      callout_with_sandbox_fallback production sandbox =
        (.ok r, ["production", "sandbox"])) ∧
    (∀ e e', production = .error e → sandbox = .error e' →
      callout_with_sandbox_fallback production sandbox =
        (.error e, ["production", "sandbox"])) := by
  refine ⟨?_, ?_, ?_⟩ <;> intros <;> subst_vars <;> rfl

theorem callout_with_sandbox_fallback_spec_witness :
    callout_with_sandbox_fallback (T := Nat)
        (.error (.appStoreServerApiError "GetTransactionInfo" "http 500"))
        (.ok 7) =
      (.ok 7, ["production", "sandbox"]) ∧
    callout_with_sandbox_fallback (T := Nat)
        (.error (.appStoreServerApiError "GetTransactionInfo" "http 500"))
        (.error (.appStoreServerApiError "GetTransactionInfo" "http 404")) =
      (.error (.appStoreServerApiError "GetTransactionInfo" "http 500"),
        ["production", "sandbox"]) :=
  ⟨(callout_with_sandbox_fallback_spec _ _).2.1 _ 7 rfl rfl,
   (callout_with_sandbox_fallback_spec _ _).2.2 _ _ rfl rfl⟩

/-- C7: for the Subscription product tag, the extracted `expiration_time` is
the Apple transaction's `expires_date` (absence being an InvalidResponse
error), respectively the maximum `expiry_time` over the Google line items
(an empty line-item list being an InvalidResponse error); missing values are
never defaulted. -/
theorem subscription_expiration_extraction_spec
    (m : JwsTransactionDecodedPayloadModel) (g : SubscriptionPurchaseV2Model) :
    (∀ e, m.expires_date = some e →
      extract_details_from_apple_transaction .subscription m =
        .ok (.subscriptionDetails e)) ∧
    (m.expires_date = none →
      extract_details_from_apple_transaction .subscription m =
        .error (.appStoreServerApiInvalidResponse
          "subscription transaction info did not contain expiration date")) ∧
    (g.line_items ≠ [] →
      ∃ e, extract_details_from_google_subscription_purchase .subscription g =
        .ok (.subscriptionDetails e) ∧
        (∃ li ∈ g.line_items, li.expiry_time = e) ∧
        (∀ li ∈ g.line_items, li.expiry_time ≤ e)) ∧
    (g.line_items = [] →
      extract_details_from_google_subscription_purchase .subscription g =
        .error (.googlePlayDeveloperApiInvalidResponse
          "subscription did not have any line items")) := by
  refine ⟨?_, ?_, ?_, ?_⟩
  · intro e he
    simp [extract_details_from_apple_transaction, he]
  · intro he
    simp [extract_details_from_apple_transaction, he]
  · intro hne
    obtain ⟨h, t, hl⟩ := List.exists_cons_of_ne_nil hne
    refine ⟨(t.foldl max_step h).expiry_time, ?_, ?_, ?_⟩
    · simp [extract_details_from_google_subscription_purchase, hl,
        max_by_expiry_cons]
    · rcases (foldl_max_step_props t h).1 with he | hm
      · exact ⟨h, by simp [hl], by rw [he]⟩
      · exact ⟨t.foldl max_step h, by simp [hl, hm], rfl⟩
    · intro li hli
      rw [hl] at hli
      rcases List.mem_cons.mp hli with rfl | hli
      · exact (foldl_max_step_props t li).2.1
      · exact (foldl_max_step_props t h).2.2 li hli
  · intro he
    simp [extract_details_from_google_subscription_purchase, he,
      max_by_expiry_nil]

theorem subscription_expiration_extraction_spec_witness :
    extract_details_from_apple_transaction .subscription exSubscriptionTx =
      .ok (.subscriptionDetails 20) ∧
    (∃ e, extract_details_from_google_subscription_purchase .subscription
        exCanceledSub = .ok (.subscriptionDetails e) ∧
      (∃ li ∈ exCanceledSub.line_items, li.expiry_time = e) ∧
      (∀ li ∈ exCanceledSub.line_items, li.expiry_time ≤ e)) :=
  ⟨(subscription_expiration_extraction_spec exSubscriptionTx exCanceledSub).1
      20 rfl,
   (subscription_expiration_extraction_spec exSubscriptionTx
      exCanceledSub).2.2.1 (by simp [exCanceledSub])⟩

theorem from_google_subscription_purchase_ok_is_active (now : Int)
    (rl : String → Option String) (pt : ProductIdType)
    (pid : IapPurchaseId) (m : SubscriptionPurchaseV2Model)
    (p : Option InAppProductModel) (d : IapDetails)
    (h : IapDetails.from_google_subscription_purchase now rl pt pid m p =
      .ok d) :
    d.is_active =
      ((decide (m.subscription_state = .subscriptionStateActive) ||
        decide (m.subscription_state = .subscriptionStatePaused) ||
        decide (m.subscription_state = .subscriptionStateOnHold) ||
        decide (m.subscription_state = .subscriptionStateCanceled) ||
        decide (m.subscription_state = .subscriptionStateInGracePeriod)) &&
       m.line_items.any (fun li => decide (li.expiry_time > now))) := by
  unfold IapDetails.from_google_subscription_purchase at h
  rcases hst : m.start_time with _ | t <;> rw [hst] at h
  · simp [bind, Except.bind, pure, Except.pure] at h
  rcases hrl : rl m.region_code with _ | region <;> rw [hrl] at h
  · simp [bind, Except.bind, pure, Except.pure] at h
  rcases hp : p.map
      (fun p => PriceInfo.from_google_in_app_product_model p m.region_code)
    with _ | x <;> rw [hp] at h
  case some.some.some =>
    cases x with
    | error e => simp [bind, Except.bind, pure, Except.pure] at h
    | ok pi =>
        cases he : extract_details_from_google_subscription_purchase pt m <;>
          rw [he] at h
        · simp [bind, Except.bind, pure, Except.pure] at h
        · simp only [bind, Except.bind, pure, Except.pure, Except.ok.injEq] at h
          subst h
          rfl
  case some.some.none =>
    cases he : extract_details_from_google_subscription_purchase pt m <;>
      rw [he] at h
    · simp [bind, Except.bind, pure, Except.pure] at h
    · simp only [bind, Except.bind, pure, Except.pure, Except.ok.injEq] at h
      subst h
      rfl

/-- C4: a successfully normalized Google subscription purchase has
`is_active = true` exactly when its subscription state is one of Active,
Paused, OnHold, Canceled, InGracePeriod and at least one line item's
`expiry_time` is strictly in the future. -/
theorem from_google_subscription_purchase_is_active_iff (now : Int)
    (rl : String → Option String) (pid : IapPurchaseId)
    (m : SubscriptionPurchaseV2Model) (p : Option InAppProductModel)
    (d : IapDetails)
    (h : IapDetails.from_google_subscription_purchase now rl .subscription
      pid m p = .ok d) :
    d.is_active = true ↔
      ((m.subscription_state = .subscriptionStateActive ∨
        m.subscription_state = .subscriptionStatePaused ∨
        m.subscription_state = .subscriptionStateOnHold ∨
        m.subscription_state = .subscriptionStateCanceled ∨
        m.subscription_state = .subscriptionStateInGracePeriod) ∧
       ∃ li ∈ m.line_items, now < li.expiry_time) := by
  rw [from_google_subscription_purchase_ok_is_active now rl .subscription pid
    m p d h]
  simp [List.any_eq_true, or_assoc]

theorem from_google_subscription_purchase_is_active_iff_witness :
    (exCanceledDetails.is_active = true ↔
      ((exCanceledSub.subscription_state = .subscriptionStateActive ∨
        exCanceledSub.subscription_state = .subscriptionStatePaused ∨
        exCanceledSub.subscription_state = .subscriptionStateOnHold ∨
        exCanceledSub.subscription_state = .subscriptionStateCanceled ∨
        exCanceledSub.subscription_state = .subscriptionStateInGracePeriod) ∧
       ∃ li ∈ exCanceledSub.line_items, 3 < li.expiry_time)) :=
  from_google_subscription_purchase_is_active_iff 3 exRegionLookup
    (.googlePlayPurchaseToken "tok") exCanceledSub none exCanceledDetails rfl

/-- C1: `verify_and_get_details` returns Ok only for snapshots with
`is_active = true`; whenever the normalized snapshot has `is_active = false`
the call fails with the dedicated `NotActive` error, a variant distinct from
the transport, parse, and signature error variants. -/
theorem verify_and_get_details_not_active_spec (now : Int)
    (rl : String → Option String) (apple : AppStoreServerApiDatasource)
    (google : GooglePlayDeveloperApiDatasource) (application_id : String)
    (pt : ProductIdType) (sku : String) (purchase_id : IapPurchaseId)
    (include_price_info : Bool) :
    (∀ d, verify_and_get_details now rl apple google application_id pt sku
        purchase_id include_price_info = .ok d → d.is_active = true) ∧
    (∀ d, compute_details now rl apple google application_id pt sku
        purchase_id include_price_info = .ok d → d.is_active = false →
      verify_and_get_details now rl apple google application_id pt sku
        purchase_id include_price_info = .error .notActive) ∧
    (∀ f s, ServerError.notActive ≠ .appStoreServerApiError f s) ∧
    (∀ f s, ServerError.notActive ≠ .googlePlayDeveloperApiError f s) ∧
    (ServerError.notActive ≠ .appStoreServerNotificationParseError) ∧
    (∀ s, ServerError.notActive ≠ .googleCloudRtdnNotificationParseError s) ∧
    (∀ s, ServerError.notActive ≠ .invalidJws s) ∧
    (∀ s, ServerError.notActive ≠ .invalidAppleSignature s) ∧
    (∀ s, ServerError.notActive ≠ .invalidGoogleSignature s) ∧
    (∀ s, ServerError.notActive ≠ .appStoreServerApiInvalidResponse s) ∧
    (∀ s, ServerError.notActive ≠ .googlePlayDeveloperApiInvalidResponse s) := by
  refine ⟨?_, ?_, by simp, by simp, by simp, by simp, by simp, by simp,
    by simp, by simp, by simp⟩
  · intro d h
    simp only [verify_and_get_details, bind, Except.bind] at h
    cases hc : compute_details now rl apple google application_id pt sku
        purchase_id include_price_info <;> rw [hc] at h
    · exact absurd h (by simp)
    · rename_i a
      by_cases hia : a.is_active = true
      · simp [hia] at h
        rw [← h]
        exact hia
      · simp [Bool.not_eq_true] at hia
        simp [hia] at h
  · intro d hc hia
    simp only [verify_and_get_details, bind, Except.bind]
    rw [hc]
    simp [hia]

theorem verify_and_get_details_not_active_spec_witness :
    verify_and_get_details 10 exRegionLookup exAppleUnused exGoogleExpired
        "com.example.app" .subscription "sku1"
        (.googlePlayPurchaseToken "tok") false = .error .notActive :=
  (verify_and_get_details_not_active_spec 10 exRegionLookup exAppleUnused
    exGoogleExpired "com.example.app" .subscription "sku1"
    (.googlePlayPurchaseToken "tok") false).2.1 exExpiredDetails rfl rfl

theorem decode_x5c_certs_ok (xs : List (Option Cert))
    (h : ∀ c ∈ xs, c.isSome) :
    ∃ certs, decode_x5c_certs xs = .ok certs ∧ certs.length = xs.length := by
  induction xs with
  | nil => exact ⟨[], rfl, rfl⟩
  | cons c t ih =>
      obtain ⟨cert, hc⟩ := Option.isSome_iff_exists.mp (h c (by simp))
      obtain ⟨certs, hm, hl⟩ := ih (fun c hc => h c (by simp [hc]))
      subst hc
      exact ⟨cert :: certs, by simp [decode_x5c_certs, hm], by simp [hl]⟩

theorem validate_apple_jws_ok_aud {P : Type} (jws : AppleJws P)
    (expected : String) (p : P)
    (h : validate_and_parse_apple_jws jws expected = .ok p) :
    jws.payload_aud = none ∨ jws.payload_aud = some expected := by
  simp only [validate_and_parse_apple_jws] at h
  repeat' split at h
  all_goals simp_all

/-- C2: a payload whose `aud` claim does not match the expected audience is
rejected: the Apple verifier never returns Ok (and, when all earlier checks
pass, fails with `InvalidAppleSignature`), and the Google verifier fails
with `InvalidGoogleSignature` for a mismatching single-string `aud`, while
an array-shaped `aud` is accepted exactly when some element equals the
expected audience. -/
theorem aud_mismatch_rejected {P : Type} (jws : AppleJws P)
    (expected a : String) (g : Except String GoogleClaims) :
    (jws.payload_aud = some a → a ≠ expected →
      ∀ p, validate_and_parse_apple_jws jws expected ≠ .ok p) ∧
    (∀ xs, jws.payload_aud = some a → a ≠ expected →
      jws.header_ok = true → jws.x5c = some xs → (∀ c ∈ xs, c.isSome) →
      xs ≠ [] → jws.chain_verify = some true → jws.sig_valid = true →
      validate_and_parse_apple_jws jws expected =
        .error (.invalidAppleSignature "failed to verify JWS signature")) ∧
    (∀ claims, g = .ok claims → claims.aud = .one a → a ≠ expected →
      validate_google_header g expected =
        .error (.invalidGoogleSignature "audience")) ∧
    (∀ claims l, g = .ok claims → claims.aud = .vec l →
      (validate_google_header g expected = .ok () ↔ expected ∈ l)) := by
  refine ⟨?_, ?_, ?_, ?_⟩
  · intro h1 h2 p hok
    rcases validate_apple_jws_ok_aud jws expected p hok with hn | hs
    · rw [h1] at hn
      exact Option.noConfusion hn
    · rw [h1] at hs
      exact h2 (Option.some.injEq .. ▸ hs)
  · intro xs h1 h2 hh hx5c hsomes hne hcv hsv
    obtain ⟨certs, hm, hl⟩ := decode_x5c_certs_ok xs hsomes
    have hcne : certs ≠ [] := by
      intro hc
      rw [hc] at hl
      exact hne (List.eq_nil_of_length_eq_zero hl.symm)
    obtain ⟨c0, crest, hcerts⟩ := List.exists_cons_of_ne_nil hcne
    simp [validate_and_parse_apple_jws, hh, hx5c, hm, hcerts, hcv, hsv, h1,
      h2]
  · intro claims hg haud hne
    simp [validate_google_header, hg, haud, hne]
  · intro claims l hg haud
    by_cases hany : l.any (fun aud => decide (aud = expected)) = true
    · simp only [validate_google_header, hg, haud, hany, Bool.not_true,
        Bool.false_eq_true, if_false]
      simp only [List.any_eq_true, decide_eq_true_eq] at hany
      obtain ⟨x, hx, rfl⟩ := hany
      simp [hx]
    · simp only [validate_google_header, hg, haud]
      rw [Bool.not_eq_true] at hany
      rw [hany]
      simp only [List.any_eq_false, decide_eq_true_eq] at hany
      simp only [Bool.not_false, if_true]
      constructor
      · intro hfalse
        exact absurd hfalse (by simp)
      · intro hmem
        exact absurd rfl (hany expected hmem)

theorem aud_mismatch_rejected_witness :
    validate_and_parse_apple_jws (exValidJws () "evil") "aud1" =
      .error (.invalidAppleSignature "failed to verify JWS signature") ∧
    (validate_google_header (.ok { aud := .vec ["x", "aud1"] }) "aud1" =
        .ok () ↔ "aud1" ∈ ["x", "aud1"]) :=
  ⟨(aud_mismatch_rejected (exValidJws () "evil") "aud1" "evil"
      (.ok { aud := .vec ["x", "aud1"] })).2.1
      [some "leafcert", some "intermediate"] rfl (by decide) rfl rfl
      (by decide) (by decide) rfl rfl,
   (aud_mismatch_rejected (exValidJws () "evil") "aud1" "evil"
      (.ok { aud := .vec ["x", "aud1"] })).2.2.2 _ _ rfl rfl⟩

/-- C9: `parse_notification` runs every nested signed payload under `data`
(signedTransactionInfo and signedRenewalInfo) through the same
`validate_and_parse_apple_jws` trust verification, with the same expected
audience, as the outer signedPayload; if verification of a nested payload
fails the whole call returns that error, and on success the returned infos
are exactly the verifier's outputs. -/
theorem parse_notification_nested_verification
    (body : Option ResponseBodyV2Model) (expected_aud : String)
    (w : ResponseBodyV2Model) (dp : ResponseBodyV2DecodedPayloadModel)
    (d : NotificationData)
    (ti : AppleJws JwsTransactionDecodedPayloadModel)
    (ri : AppleJws JwsRenewalInfoDecodedPayloadModel)
    (hb : body = some w)
    (hdp : validate_and_parse_apple_jws w.signed_payload expected_aud = .ok dp)
    (hd : dp.data = some d)
    (hti : d.signed_transaction_info = some ti)
    (hri : d.signed_renewal_info = some ri) :
    (∀ e, validate_and_parse_apple_jws ti expected_aud = .error e →
      parse_notification body expected_aud = .error e) ∧
    (∀ t e, validate_and_parse_apple_jws ti expected_aud = .ok t →
      validate_and_parse_apple_jws ri expected_aud = .error e →
      parse_notification body expected_aud = .error e) ∧
    (∀ n t r, parse_notification body expected_aud = .ok (n, t, r) →
      n = dp ∧
      (∃ t', t = some t' ∧
        validate_and_parse_apple_jws ti expected_aud = .ok t') ∧
      (∃ r', r = some r' ∧
        validate_and_parse_apple_jws ri expected_aud = .ok r')) := by
  subst hb
  refine ⟨?_, ?_, ?_⟩
  · intro e he
    simp [parse_notification, hdp, hd, hti, he]
  · intro t e ht he
    simp [parse_notification, hdp, hd, hti, hri, ht, he]
  · intro n t r h
    simp only [parse_notification, hdp, hd, hti, hri, Option.some_bind] at h
    cases hv : validate_and_parse_apple_jws ti expected_aud <;> rw [hv] at h
    · simp at h
    · rename_i t'
      cases hw : validate_and_parse_apple_jws ri expected_aud <;> rw [hw] at h
      · simp at h
      · rename_i r'
        simp only [Except.ok.injEq, Prod.mk.injEq] at h
        obtain ⟨h1, h2, h3⟩ := h
        exact ⟨h1.symm, ⟨t', h2.symm, rfl⟩, ⟨r', h3.symm, rfl⟩⟩

theorem parse_notification_nested_verification_witness :
    parse_notification (some exBadInnerBody) "aud1" =
      .error (.invalidAppleSignature "failed to verify JWS signature") :=
  (parse_notification_nested_verification (some exBadInnerBody) "aud1"
      exBadInnerBody exBadInnerPayload exBadInnerData
      (exBadSigJws exSubscriptionTx "aud1")
      (exValidJws { auto_renew_product_id := "monthly001" } "aud1")
      rfl rfl rfl rfl rfl).1
    (.invalidAppleSignature "failed to verify JWS signature") rfl

theorem from_apple_transaction_sub_ok (now : Int)
    (m : JwsTransactionDecodedPayloadModel) (e : Int)
    (h : m.expires_date = some e) :
    ∃ d, IapDetails.from_apple_transaction now .subscription m false =
      .ok d := by
  unfold IapDetails.from_apple_transaction
  rw [show extract_details_from_apple_transaction .subscription m =
    .ok (.subscriptionDetails e) by
      simp [extract_details_from_apple_transaction, h]]
  exact ⟨_, rfl⟩

theorem from_apple_transaction_nc_ok (now : Int)
    (m : JwsTransactionDecodedPayloadModel) :
    ∃ d, IapDetails.from_apple_transaction now .nonConsumable m false =
      .ok d :=
  ⟨_, rfl⟩

theorem from_apple_transaction_c_ok (now : Int)
    (m : JwsTransactionDecodedPayloadModel) :
    ∃ d, IapDetails.from_apple_transaction now .consumable m false =
      .ok d :=
  ⟨_, rfl⟩

/-- C6: an Apple notification of type DidRenew, DidFailToRenew with subtype
GracePeriod, RefundReversed, or RenewalExtended (with data and transaction
info present) produces `SubscriptionExpiryChanged`, whose `renewal_id` is
the new transaction id exactly for DidRenew and `None` for the other
types. -/
theorem from_apple_notification_expiry_changed_spec (now : Int)
    (notification : ResponseBodyV2DecodedPayloadModel)
    (transaction_info : Option JwsTransactionDecodedPayloadModel)
    (d : NotificationData) (ti : JwsTransactionDecodedPayloadModel) (e : Int)
    (hnt : notification.notification_type = .didRenew ∨
      (notification.notification_type = .didFailToRenew ∧
        notification.subtype = some .gracePeriod) ∨
      notification.notification_type = .refundReversed ∨
      notification.notification_type = .renewalExtended)
    (hd : notification.data = some d)
    (hti : transaction_info = some ti)
    (hexp : ti.expires_date = some e) :
    ∃ det, NotificationDetails.from_apple_notification now notification
        transaction_info =
      .ok (.subscriptionExpiryChanged d.bundle_id ti.product_id
        (.appStoreTransactionId ti.original_transaction_id)
        (if notification.notification_type = .didRenew then
          some ti.transaction_id
        else
          none)
        det) := by
  subst hti
  obtain ⟨D, hD⟩ := from_apple_transaction_sub_ok now ti e hexp
  refine ⟨D, ?_⟩
  rcases hnt with h1 | ⟨h1, h2⟩ | h1 | h1
  · rcases hst : notification.subtype with _ | st
    · simp [NotificationDetails.from_apple_notification, h1, hst, hd, hD,
        bind, Except.bind, pure, Except.pure]
    · rcases st <;>
        simp [NotificationDetails.from_apple_notification, h1, hst, hd, hD,
          bind, Except.bind, pure, Except.pure]
  · simp [NotificationDetails.from_apple_notification, h1, h2, hd, hD, bind,
      Except.bind, pure, Except.pure]
  · rcases hst : notification.subtype with _ | st
    · simp [NotificationDetails.from_apple_notification, h1, hst, hd, hD,
        bind, Except.bind, pure, Except.pure]
    · rcases st <;>
        simp [NotificationDetails.from_apple_notification, h1, hst, hd, hD,
          bind, Except.bind, pure, Except.pure]
  · rcases hst : notification.subtype with _ | st
    · simp [NotificationDetails.from_apple_notification, h1, hst, hd, hD,
        bind, Except.bind, pure, Except.pure]
    · rcases st <;>
        simp [NotificationDetails.from_apple_notification, h1, hst, hd, hD,
          bind, Except.bind, pure, Except.pure]

theorem from_apple_notification_expiry_changed_spec_witness :
    ∃ det, NotificationDetails.from_apple_notification 6 exDidRenewPayload
        (some exSubscriptionTx) =
      .ok (.subscriptionExpiryChanged exDidRenewData.bundle_id
        exSubscriptionTx.product_id
        (.appStoreTransactionId exSubscriptionTx.original_transaction_id)
        (if exDidRenewPayload.notification_type = .didRenew then
          some exSubscriptionTx.transaction_id
        else
          none)
        det) :=
  from_apple_notification_expiry_changed_spec 6 exDidRenewPayload
    (some exSubscriptionTx) exDidRenewData exSubscriptionTx 20 (Or.inl rfl)
    rfl rfl rfl

/-- C5: an Apple Refund or Revoke notification with data and transaction
info dispatches on the transaction's product type — NonConsumable yields
`NonConsumableVoided`, Consumable yields `ConsumableVoided`, anything else
yields `SubscriptionEnded` with reason Voided — and in each outcome
`is_refunded` is true exactly for Refund. -/
theorem from_apple_notification_voided_spec (now : Int)
    (notification : ResponseBodyV2DecodedPayloadModel)
    (transaction_info : Option JwsTransactionDecodedPayloadModel)
    (d : NotificationData) (ti : JwsTransactionDecodedPayloadModel)
    (hnt : notification.notification_type = .refund ∨
      notification.notification_type = .revoke)
    (hd : notification.data = some d)
    (hti : transaction_info = some ti) :
    (ti.transaction_type = .nonConsumable →
      ∃ det, NotificationDetails.from_apple_notification now notification
          transaction_info =
        .ok (.nonConsumableVoided d.bundle_id ti.product_id
          (.appStoreTransactionId ti.original_transaction_id) det
          (decide (notification.notification_type = .refund))
          (some (revocation_reason_debug ti.revocation_reason)))) ∧
    (ti.transaction_type = .consumable →
      ∃ det, NotificationDetails.from_apple_notification now notification
          transaction_info =
        .ok (.consumableVoided d.bundle_id ti.product_id
          (.appStoreTransactionId ti.original_transaction_id) det
          (decide (notification.notification_type = .refund))
          (some (revocation_reason_debug ti.revocation_reason)))) ∧
    (ti.transaction_type ≠ .nonConsumable →
      ti.transaction_type ≠ .consumable →
      (∀ e, ti.expires_date = some e →
        ∃ det, NotificationDetails.from_apple_notification now notification
            transaction_info =
          .ok (.subscriptionEnded d.bundle_id ti.product_id
            (.appStoreTransactionId ti.original_transaction_id) det
            (.voided (decide (notification.notification_type = .refund))))) ∧
      (∀ r, NotificationDetails.from_apple_notification now notification
          transaction_info = .ok r →
        ∃ det, r = .subscriptionEnded d.bundle_id ti.product_id
          (.appStoreTransactionId ti.original_transaction_id) det
          (.voided (decide (notification.notification_type = .refund))))) := by
  subst hti
  refine ⟨?_, ?_, ?_⟩
  · intro htt
    obtain ⟨D, hD⟩ := from_apple_transaction_nc_ok now ti
    refine ⟨D, ?_⟩
    rcases hnt with h1 | h1 <;>
    rcases hst : notification.subtype with _ | st <;>
    (try rcases st) <;>
    simp [NotificationDetails.from_apple_notification, h1, hst, hd, htt, hD,
      bind, Except.bind, pure, Except.pure]
  · intro htt
    obtain ⟨D, hD⟩ := from_apple_transaction_c_ok now ti
    refine ⟨D, ?_⟩
    rcases hnt with h1 | h1 <;>
    rcases hst : notification.subtype with _ | st <;>
    (try rcases st) <;>
    simp [NotificationDetails.from_apple_notification, h1, hst, hd, htt, hD,
      bind, Except.bind, pure, Except.pure]
  · intro hn hc
    constructor
    · intro e he
      obtain ⟨D, hD⟩ := from_apple_transaction_sub_ok now ti e he
      refine ⟨D, ?_⟩
      rcases htt : ti.transaction_type with _ | _ | _ | _ | s
      case nonConsumable => exact absurd htt hn
      case consumable => exact absurd htt hc
      all_goals
        rcases hnt with h1 | h1 <;>
        rcases hst : notification.subtype with _ | st <;>
        (try rcases st) <;>
        simp [NotificationDetails.from_apple_notification, h1, hst, hd, htt,
          hD, bind, Except.bind, pure, Except.pure]
    · intro r hr
      rcases htt : ti.transaction_type with _ | _ | _ | _ | s
      case nonConsumable => exact absurd htt hn
      case consumable => exact absurd htt hc
      all_goals
        rcases hnt with h1 | h1 <;>
        rcases hst : notification.subtype with _ | st <;>
        (try rcases st) <;>
        (cases hv : IapDetails.from_apple_transaction now .subscription ti
            false with
        | error err =>
            simp [NotificationDetails.from_apple_notification, h1, hst, hd,
              htt, hv, bind, Except.bind, pure, Except.pure] at hr
        | ok D =>
            simp [NotificationDetails.from_apple_notification, h1, hst, hd,
              htt, hv, bind, Except.bind, pure, Except.pure] at hr
            refine ⟨D, ?_⟩
            simp [h1]
            exact hr.symm)

theorem from_apple_notification_voided_spec_witness :
    ∃ det, NotificationDetails.from_apple_notification 6 exRefundPayload
        (some exConsumableTx) =
      .ok (.consumableVoided exRefundData.bundle_id exConsumableTx.product_id
        (.appStoreTransactionId exConsumableTx.original_transaction_id) det
        (decide (exRefundPayload.notification_type = .refund))
        (some (revocation_reason_debug exConsumableTx.revocation_reason))) :=
  (from_apple_notification_voided_spec 6 exRefundPayload
    (some exConsumableTx) exRefundData exConsumableTx (Or.inl rfl) rfl
    rfl).2.1 rfl

/-- C8: a Google voided-purchase notification with product_type OneTime
yields `UnknownOneTimePurchaseVoided` with an empty callout log (no Google
Play Developer API method is invoked) and a result independent of the
datasource; the Subscription arm makes exactly the
`get_subscription_purchase_v2` callout and emits `SubscriptionEnded` with
reason Voided. -/
theorem from_google_voided_purchase_one_time_spec (now : Int)
    (rl : String → Option String)
    (google google' : GooglePlayDeveloperApiDatasource)
    (n : VoidedPurchaseNotification) (application_id : String) :
    (n.product_type = .productTypeOneTime →
      NotificationDetails.from_google_voided_purchase_notification now rl
          google n application_id =
        (.ok (.unknownOneTimePurchaseVoided application_id
          (.googlePlayPurchaseToken n.purchase_token)
          (decide (n.refund_type = .refundTypeFullRefund)) none), []) ∧
      NotificationDetails.from_google_voided_purchase_notification now rl
          google n application_id =
        NotificationDetails.from_google_voided_purchase_notification now rl
          google' n application_id) ∧
    (n.product_type = .productTypeSubscription →
      (NotificationDetails.from_google_voided_purchase_notification now rl
          google n application_id).2 =
        [(application_id, n.purchase_token)] ∧
      ∀ r, (NotificationDetails.from_google_voided_purchase_notification now
          rl google n application_id).1 = .ok r →
        ∃ pid det, r = .subscriptionEnded application_id pid
          (.googlePlayPurchaseToken n.purchase_token) det
          (.voided (decide (n.refund_type = .refundTypeFullRefund)))) := by
  constructor
  · intro h
    constructor <;>
      simp [NotificationDetails.from_google_voided_purchase_notification, h]
  · intro h
    constructor
    · cases hv : google.get_subscription_purchase_v2 application_id
          n.purchase_token <;>
        simp [NotificationDetails.from_google_voided_purchase_notification,
          h, hv]
    · intro r hr
      cases hv : google.get_subscription_purchase_v2 application_id
          n.purchase_token with
      | error err =>
          simp [NotificationDetails.from_google_voided_purchase_notification,
            h, hv] at hr
      | ok m =>
          rcases hlast : m.line_items.getLast? with _ | li
          · simp [NotificationDetails.from_google_voided_purchase_notification,
              h, hv, hlast, bind, Except.bind, pure, Except.pure] at hr
          · cases hsub : IapDetails.from_google_subscription_purchase now rl
                .subscription (.googlePlayPurchaseToken n.purchase_token) m
                none with
            | error err =>
                simp [NotificationDetails.from_google_voided_purchase_notification,
                  h, hv, hlast, hsub, bind, Except.bind, pure,
                  Except.pure] at hr
            | ok D =>
                simp [NotificationDetails.from_google_voided_purchase_notification,
                  h, hv, hlast, hsub, bind, Except.bind, pure,
                  Except.pure] at hr
                exact ⟨li.product_id, D, hr.symm⟩

theorem from_google_voided_purchase_one_time_spec_witness :
    NotificationDetails.from_google_voided_purchase_notification 10
        exRegionLookup exGoogleUnused exVoidedOneTimeFull "com.example.app" =
      (.ok (.unknownOneTimePurchaseVoided "com.example.app"
        (.googlePlayPurchaseToken exVoidedOneTimeFull.purchase_token)
        (decide (exVoidedOneTimeFull.refund_type = .refundTypeFullRefund))
        none), []) ∧
    NotificationDetails.from_google_voided_purchase_notification 10
        exRegionLookup exGoogleUnused exVoidedOneTimeFull "com.example.app" =
      NotificationDetails.from_google_voided_purchase_notification 10
        exRegionLookup exGoogleExpired exVoidedOneTimeFull "com.example.app" :=
  (from_google_voided_purchase_one_time_spec 10 exRegionLookup exGoogleUnused
    exGoogleExpired exVoidedOneTimeFull "com.example.app").1 rfl

/-- C10: the `is_refunded` flag produced from a Google voided-purchase
notification — on `UnknownOneTimePurchaseVoided` and inside
`SubscriptionEnded`'s Voided reason alike — is true exactly for
RefundTypeFullRefund; a quantity-based partial refund yields
`is_refunded = false`. -/
theorem from_google_voided_purchase_refund_flag_spec (now : Int)
    (rl : String → Option String)
    (google : GooglePlayDeveloperApiDatasource)
    (n : VoidedPurchaseNotification) (application_id : String) :
    (n.product_type = .productTypeOneTime →
      (n.refund_type = .refundTypeFullRefund →
        (NotificationDetails.from_google_voided_purchase_notification now rl
            google n application_id).1 =
          .ok (.unknownOneTimePurchaseVoided application_id
            (.googlePlayPurchaseToken n.purchase_token) true none)) ∧
      (n.refund_type = .refundTypeQuantityBasedPartialRefund →
        (NotificationDetails.from_google_voided_purchase_notification now rl
            google n application_id).1 =
          .ok (.unknownOneTimePurchaseVoided application_id
            (.googlePlayPurchaseToken n.purchase_token) false none))) ∧
    (n.product_type = .productTypeSubscription →
      ∀ r, (NotificationDetails.from_google_voided_purchase_notification now
          rl google n application_id).1 = .ok r →
        (n.refund_type = .refundTypeFullRefund →
          ∃ pid det, r = .subscriptionEnded application_id pid
            (.googlePlayPurchaseToken n.purchase_token) det (.voided true)) ∧
        (n.refund_type = .refundTypeQuantityBasedPartialRefund →
          ∃ pid det, r = .subscriptionEnded application_id pid
            (.googlePlayPurchaseToken n.purchase_token) det
            (.voided false))) := by
  constructor
  · intro h
    constructor <;> intro hrt <;>
      simp [NotificationDetails.from_google_voided_purchase_notification, h,
        hrt]
  · intro h r hr
    cases hv : google.get_subscription_purchase_v2 application_id
        n.purchase_token with
    | error err =>
        simp [NotificationDetails.from_google_voided_purchase_notification,
          h, hv] at hr
    | ok m =>
        rcases hlast : m.line_items.getLast? with _ | li
        · simp [NotificationDetails.from_google_voided_purchase_notification,
            h, hv, hlast, bind, Except.bind, pure, Except.pure] at hr
        · cases hsub : IapDetails.from_google_subscription_purchase now rl
              .subscription (.googlePlayPurchaseToken n.purchase_token) m
              none with
          | error err =>
              simp [NotificationDetails.from_google_voided_purchase_notification,
                h, hv, hlast, hsub, bind, Except.bind, pure,
                Except.pure] at hr
          | ok D =>
              simp [NotificationDetails.from_google_voided_purchase_notification,
                h, hv, hlast, hsub, bind, Except.bind, pure,
                Except.pure] at hr
              constructor <;> intro hrt <;>
                refine ⟨li.product_id, D, ?_⟩ <;>
                rw [← hr] <;>
                simp [hrt]

theorem from_google_voided_purchase_refund_flag_spec_witness :
    (NotificationDetails.from_google_voided_purchase_notification 10
        exRegionLookup exGoogleUnused exVoidedOneTimeFull
        "com.example.app").1 =
      .ok (.unknownOneTimePurchaseVoided "com.example.app"
        (.googlePlayPurchaseToken "tok") true none) ∧
    (NotificationDetails.from_google_voided_purchase_notification 10
        exRegionLookup exGoogleUnused exVoidedOneTimePartial
        "com.example.app").1 =
      .ok (.unknownOneTimePurchaseVoided "com.example.app"
        (.googlePlayPurchaseToken "tok") false none) :=
  ⟨((from_google_voided_purchase_refund_flag_spec 10 exRegionLookup
      exGoogleUnused exVoidedOneTimeFull "com.example.app").1 rfl).1 rfl,
   ((from_google_voided_purchase_refund_flag_spec 10 exRegionLookup
      exGoogleUnused exVoidedOneTimePartial "com.example.app").1 rfl).2 rfl⟩

end RustIap
